import Mathlib

/-!
Verification of the partner (peer-to-peer session) module of python-snap7.

The Python source `snap7/partner.py` drives an external transport engine
through ctypes calls (Par_Create, Par_BSend, Par_BRecv, ...).  We embed each
Python method as a pure Lean function: the engine is out of scope, so every
engine interaction is made explicit — the engine result code (and any data
the engine writes) is an argument of the Lean function, and the list of
engine calls the method performs is part of its result, so that "no engine
call is made" is a provable statement.

Helpers that live elsewhere in the repository (snap7.types, snap7.common,
snap7.exceptions) are not part of the source tree examined here; their
definitions below are modelled from the specification and marked as such.
-/

set_option autoImplicit false

namespace Snap7

/-- Modelled from the spec: the Receive Buffer capacity C, `snap7.types.buffer_size`
(absent from src).  The spec fixes C = 65535 bytes (payload lengths 0..C-1 are
accepted, length ≥ C is rejected before transmission). -/
def buffer_size : Nat := 65535

/-- Engine sentinel code for a receive timeout (partner.py line 22). -/
def err_Par_Recv_Timeout : Int := 0x00B00000

/-- Engine sentinel code for a send timeout (partner.py line 23). -/
def err_Par_Send_Timeout : Int := 0x00A00000

/-- The Python exceptions the partner module can raise.  `engineFailure` is the
Snap7Exception produced by `check_error` from a non-zero engine result code;
`snap7Timeout` is Snap7TimeoutException with its message; `snap7Exception` is a
Snap7Exception raised directly with a message; `valueError`, `typeError` and
`keyError` are the corresponding Python built-in exceptions. -/
inductive PyError where
  | valueError (msg : String)
  | typeError (msg : String)
  | keyError (number : Int)
  | engineFailure (code : Int)
  | snap7Exception (msg : String)
  | snap7Timeout (msg : String)
deriving Repr, DecidableEq

/-- Modelled from the spec: `snap7.common.check_error` (absent from src).  The
spec taxonomy maps any non-zero engine result code to a generic engine failure
carrying the raw code, and code 0 to normal return. -/
def check_error (code : Int) : Except PyError Unit :=
  if code = 0 then .ok () else .error (.engineFailure code)

/-- The `error_wrap` decorator of partner.py (lines 26-35): the decorated
method returns the engine result code, `check_error` raises on a non-zero
code, and the code itself is returned otherwise. -/
def error_wrap (code : Int) : Except PyError Int :=
  match check_error code with
  | .error e => .error e
  | .ok _ => .ok code

/-- A caller-supplied byte buffer, as seen through the Python buffer protocol:
its bytes and whether the buffer is writable (a `bytearray` is writable, an
immutable `bytes` object is not). -/
structure PyBuffer where
  data : List Nat
  writable : Bool
deriving Repr, DecidableEq

/-- A send-type call made on the engine: the routing id, the payload bytes
handed over, and the size argument. -/
structure EngineSendCall where
  rid : Nat
  payload : List Nat
  size : Nat
deriving Repr, DecidableEq

/-- Partner.as_b_send (partner.py lines 57-80).  Checks the payload size
against the buffer capacity, marshals the bytes with `from_buffer_copy`
(which copies and therefore also accepts a read-only buffer), calls the
engine Par_AsBSend, and runs through `error_wrap`.  `engineResult` is the
code Par_AsBSend would return; the second component lists the engine calls
performed. -/
def as_b_send (data : PyBuffer) (rid : Nat) (engineResult : Int) :
    Except PyError Int × List EngineSendCall :=
  let size := data.data.length
  if size ≥ buffer_size then
    (.error (.valueError "data to send too big maxsize =  65535"), [])
  else
    let cdata := data.data
    (error_wrap engineResult, [⟨rid, cdata, size⟩])

/-- Partner.b_send (partner.py lines 108-137).  Checks the payload size, then
marshals with ctypes `from_buffer`, which wraps the caller buffer in place and
raises TypeError on a read-only buffer; calls the engine Par_BSend; maps the
dedicated send-timeout sentinel to Snap7TimeoutException and every other code
through `check_error` (via `error_wrap`). -/
def b_send (data : PyBuffer) (rid : Nat) (engineResult : Int) :
    Except PyError Int × List EngineSendCall :=
  let size := data.data.length
  if size ≥ buffer_size then
    (.error (.valueError "data to send too big maxsize =  65535"), [])
  else if !data.writable then
    (.error (.typeError "underlying buffer is not writable"), [])
  else
    let call : EngineSendCall := ⟨rid, data.data, size⟩
    if engineResult = err_Par_Send_Timeout then
      (.error (.snap7Timeout "Partner send Timeout"), [call])
    else
      (error_wrap engineResult, [call])

/-- What the engine reports back from a Par_BRecv call: the result code, the
routing id, the reported received length, and the contents of the Receive
Buffer after the engine wrote into it. -/
structure BRecvEngineResponse where
  result : Int
  rid : Nat
  size : Nat
  bufferAfter : List Nat
deriving Repr, DecidableEq

/-- The engine delivering payload `p` into the Receive Buffer: the buffer
holds `p` in its first `p.length` positions, the rest is unchanged. -/
def writeBuffer (p buf : List Nat) : List Nat := p ++ buf.drop p.length

/-- Partner.b_recv (partner.py lines 82-106).  The engine writes into the
shared Receive Buffer and reports rid and size; the dedicated receive-timeout
sentinel raises Snap7TimeoutException, any other non-zero code goes through
`check_error`, and on success the method returns the rid together with a copy
of exactly the first `size` bytes of the Receive Buffer. -/
def b_recv (resp : BRecvEngineResponse) : Except PyError (Nat × List Nat) :=
  if resp.result = err_Par_Recv_Timeout then
    .error (.snap7Timeout "Partner recv Timeout")
  else
    match check_error resp.result with
    | .error e => .error e
    | .ok _ => .ok (resp.rid, resp.bufferAfter.take resp.size)

/-- The fields of a Partner relevant to destruction: whether self._library is
set (always true after __init__) and the engine handle self._pointer
(none models a null handle). -/
structure DestroySession where
  library : Bool
  pointer : Option Nat
deriving Repr, DecidableEq

/-- A Par_Destroy call made on the engine, recording the handle value that
was forwarded (by reference). -/
structure DestroyCall where
  handle : Option Nat
deriving Repr, DecidableEq

/-- Partner.destroy (partner.py lines 198-206).  If self._library is set it
calls the engine Par_Destroy with byref(self._pointer) and returns the
engine result code without checking it; otherwise it returns None.  The
engine side is modelled from the spec: Par_Destroy nulls the handle through
the by-reference pointer; its result code is the argument `engineResult`.
The Python code itself never nulls the pointer and never raises. -/
def destroy (s : DestroySession) (engineResult : Int) :
    DestroySession × Option Int × List DestroyCall :=
  if s.library then
    ({ s with pointer := none }, some engineResult, [⟨s.pointer⟩])
  else
    (s, none, [])

/-- Partner.__del__ (partner.py lines 54-55): the automatic teardown simply
invokes destroy. -/
def partner_del (s : DestroySession) (engineResult : Int) :
    DestroySession × Option Int × List DestroyCall :=
  destroy s engineResult

/-- Partner.stop (partner.py lines 373-376): returns the engine Par_Stop
result code as-is — no error_wrap, no check_error, so it can never raise. -/
def stop (engineResult : Int) : Except PyError Int :=
  .ok engineResult

/-- Modelled from the spec: snap7.common.ipv4 (absent from src), the
syntactic IPv4 dotted-quad validator that start_to applies via re.match.
Helper: split a character list on the dot separator. -/
def splitOnDot : List Char → List (List Char)
  | [] => [[]]
  | c :: cs =>
    let rest := splitOnDot cs
    if c = '.' then [] :: rest
    else
      match rest with
      | r :: rs => (c :: r) :: rs
      | [] => [[c]]

/-- Decimal value of a digit character. -/
def digitVal (c : Char) : Nat := c.toNat - 48

/-- Decimal value of a digit string. -/
def octetValue : List Char → Nat
  | [] => 0
  | c :: cs => digitVal c * 10 ^ cs.length + octetValue cs

/-- An octet of a dotted quad: non-empty, all digits, value at most 255. -/
def validOctet (cs : List Char) : Bool :=
  (!cs.isEmpty) && cs.all Char.isDigit && octetValue cs ≤ 255

/-- Modelled from the spec: a syntactically valid IPv4 dotted-quad string —
exactly four dot-separated decimal octets, each in 0..255. -/
def isValidIPv4 (s : String) : Bool :=
  match splitOnDot s.data with
  | [a, b, c, d] => validOctet a && validOctet b && validOctet c && validOctet d
  | _ => false

/-- The connection state the engine keeps; get_status reads it.  Status 0 is
disconnected. -/
structure LinkState where
  status : Int
deriving Repr, DecidableEq

/-- A Par_StartTo call made on the engine. -/
structure EngineStartCall where
  local_ip : String
  remote_ip : String
  local_tsap : Nat
  remote_tsap : Nat
deriving Repr, DecidableEq

/-- Partner.start_to (partner.py lines 347-371).  Validates both addresses
against the ipv4 pattern, raising ValueError on the first mismatch before
any engine call; otherwise calls the engine Par_StartTo (whose result code
is `engineResult` and whose effect on the connection state is
`engineStateAfter`) and runs through error_wrap.  Returns the outcome, the
connection state afterwards, and the engine calls performed. -/
def start_to (st : LinkState) (local_ip remote_ip : String)
    (local_tsap remote_tsap : Nat) (engineResult : Int)
    (engineStateAfter : LinkState) :
    Except PyError Int × LinkState × List EngineStartCall :=
  if !(isValidIPv4 local_ip) then
    (.error (.valueError (local_ip ++ " is invalid ipv4")), st, [])
  else if !(isValidIPv4 remote_ip) then
    (.error (.valueError (remote_ip ++ " is invalid ipv4")), st, [])
  else
    (error_wrap engineResult,
     engineStateAfter,
     [⟨local_ip, remote_ip, local_tsap, remote_tsap⟩])

/-- Partner.get_status (partner.py lines 250-256): asks the engine for the
status value held in the connection state, checking the engine result code. -/
def get_status (st : LinkState) (engineResult : Int) : Except PyError Int :=
  match check_error engineResult with
  | .error e => .error e
  | .ok _ => .ok st.status

/-- Partner.wait_as_b_send_completion (partner.py lines 378-399): the inner
function maps the dedicated send-timeout sentinel to Snap7TimeoutException
and returns the engine code otherwise; the error_wrap decorator then runs
that returned code through check_error. -/
def wait_as_b_send_completion (engineResult : Int) : Except PyError Int :=
  if engineResult = err_Par_Send_Timeout then
    .error (.snap7Timeout "Partner wait for asynchronous send  Timeout")
  else
    error_wrap engineResult

/-- Partner.check_as_b_send_completion (partner.py lines 166-187): the engine
returns a result code and writes op_result; -2 raises the invalid-parameter
Snap7Exception, 0 means the job finished (op_result is then checked and True
returned), anything else means still running (False). -/
def check_as_b_send_completion (result : Int) (op_result : Int) :
    Except PyError Bool :=
  if result = -2 then
    .error (.snap7Exception "The check_as_b_send_completion parameter was invalid")
  else if result = 0 then
    match check_error op_result with
    | .error e => .error e
    | .ok _ => .ok true
  else
    .ok false

/-- One invocation of the consumer callback registered via
set_recv_callback: the op_result passed, and the rid/data arguments (None is
modelled as none). -/
structure ConsumerCall where
  op_result : Int
  rid : Option Nat
  data : Option (List Nat)
deriving Repr, DecidableEq

/-- The wrapper closure inside Partner.set_recv_callback (partner.py lines
301-319).  The engine invokes it with a result code, the rid, a pointer into
engine-owned transient memory and the received size; `transient` models the
bytes that pointer addresses.  On code 0 the wrapper builds a fresh
bytearray from exactly `size` bytes read at the pointer and calls the
consumer once with it; on a non-zero code it calls the consumer once with
(code, None, None).  The result is the list of consumer invocations made. -/
def recv_callback_wrapper (op_result : Int) (rid : Nat)
    (transient : List Nat) (size : Nat) : List ConsumerCall :=
  if op_result = 0 then
    [⟨op_result, some rid, some (transient.take size)⟩]
  else
    [⟨op_result, none, none⟩]

/-- Modelled from the spec: the scalar types of the Parameter Registry —
spec section 3 lists signed 32-bit, unsigned 32-bit and 16-bit word. -/
inductive ParamCType where
  | int32
  | uint32
  | word
deriving Repr, DecidableEq

/-- Modelled from the spec: snap7.types.param_types (absent from src), the
fixed Parameter Registry mapping each known parameter number to its scalar
type.  The numbers are the parameter constants the test suite references,
LocalPort = 1 through KeepAliveTime = 15; every other number is absent. -/
def param_types (number : Int) : Option ParamCType :=
  if number = 1 then some .word
  else if number = 2 then some .word
  else if number = 3 then some .int32
  else if number = 4 then some .int32
  else if number = 5 then some .int32
  else if number = 6 then some .int32
  else if number = 7 then some .word
  else if number = 8 then some .word
  else if number = 9 then some .word
  else if number = 10 then some .int32
  else if number = 11 then some .int32
  else if number = 12 then some .int32
  else if number = 13 then some .int32
  else if number = 14 then some .uint32
  else if number = 15 then some .uint32
  else none

/-- Partner.get_param (partner.py lines 216-231): looks the number up in
param_types — a missing key raises KeyError before the engine is reached —
then calls the engine Par_GetParam and checks its result code, returning the
value the engine wrote.  The Bool records whether an engine call was made. -/
def get_param (number : Int) (engineResult : Int) (engineValue : Int) :
    Except PyError Int × Bool :=
  match param_types number with
  | none => (.error (.keyError number), false)
  | some _ =>
    match check_error engineResult with
    | .error e => (.error e, true)
    | .ok _ => (.ok engineValue, true)

/-- Partner.set_param (partner.py lines 270-284): the same registry lookup
(KeyError before any engine call on a missing number), then error_wrap
around the engine Par_SetParam result code. -/
def set_param (number : Int) (engineResult : Int) :
    Except PyError Int × Bool :=
  match param_types number with
  | none => (.error (.keyError number), false)
  | some _ => (error_wrap engineResult, true)

/-- Discriminator: does an operation outcome consist of a raised TypeError? -/
def raisesTypeError (r : Except PyError Int × List EngineSendCall) : Bool :=
  match r.1 with
  | .error (.typeError _) => true
  | _ => false

end Snap7

namespace Snap7

/-- C1: Round-trip fidelity.  If the payload fits (length < capacity), the
peer's b_send succeeds (engine code 0) handing the engine exactly (rid, p),
and when the engine delivers that packet — writing p into the Receive Buffer
and reporting its length — b_recv returns exactly (r, p): a copy of exactly
the received length taken from the Receive Buffer, no truncation, no padding. -/
theorem b_send_b_recv_roundtrip (p : List Nat) (r : Nat) (buf : List Nat)
    (hlen : p.length < buffer_size) :
    b_send ⟨p, true⟩ r 0 = (.ok 0, [⟨r, p, p.length⟩]) ∧
    b_recv ⟨0, r, p.length, writeBuffer p buf⟩ = .ok (r, p) := by
  constructor
  · simp [b_send, error_wrap, check_error, err_Par_Send_Timeout,
      Nat.not_le.mpr hlen]
  · simp [b_recv, check_error, err_Par_Recv_Timeout, writeBuffer,
      List.take_left]

/-- Witness for C1 at p = [1, 2, 3], r = 7, an arbitrary prior buffer. -/
theorem b_send_b_recv_roundtrip_witness :
    ([1, 2, 3] : List Nat).length < buffer_size ∧
    (b_send ⟨[1, 2, 3], true⟩ 7 0 = (.ok 0, [⟨7, [1, 2, 3], 3⟩]) ∧
      b_recv ⟨0, 7, 3, writeBuffer [1, 2, 3] [9, 9, 9, 9, 9]⟩ = .ok (7, [1, 2, 3])) :=
  ⟨by decide, b_send_b_recv_roundtrip [1, 2, 3] 7 [9, 9, 9, 9, 9] (by decide)⟩

/-- C2: For every payload of length ≥ capacity, both b_send and as_b_send
fail with the payload-too-large ValueError before any engine call: the engine
call list is empty, so no engine state (statistics included) can change. -/
theorem oversized_payload_rejected_before_engine (data : PyBuffer) (rid : Nat)
    (engineResult : Int) (hlen : data.data.length ≥ buffer_size) :
    b_send data rid engineResult =
      (.error (.valueError "data to send too big maxsize =  65535"), []) ∧
    as_b_send data rid engineResult =
      (.error (.valueError "data to send too big maxsize =  65535"), []) := by
  constructor
  · simp [b_send, hlen]
  · simp [as_b_send, hlen]

/-- Witness for C2 at a payload of exactly capacity bytes. -/
theorem oversized_payload_rejected_before_engine_witness :
    (PyBuffer.mk (List.replicate buffer_size 0) true).data.length ≥ buffer_size ∧
    (b_send ⟨List.replicate buffer_size 0, true⟩ 1 0 =
      (.error (.valueError "data to send too big maxsize =  65535"), []) ∧
    as_b_send ⟨List.replicate buffer_size 0, true⟩ 1 0 =
      (.error (.valueError "data to send too big maxsize =  65535"), [])) :=
  ⟨by simp, oversized_payload_rejected_before_engine _ 1 0 (by simp)⟩

/-- C3 counterexample: after one destroy() the handle is null (the engine
nulled it through the by-reference pointer), yet the automatic teardown
(__del__ → destroy) still makes an engine call and forwards that null handle
— the claim says no null handle is ever forwarded to the engine. -/
theorem destroy_forwards_null_handle_counterexample :
    (partner_del (destroy ⟨true, some 1⟩ 0).1 0).2.2 = [⟨none⟩] ∧
    ([⟨none⟩] : List DestroyCall) ≠ [] := by
  constructor
  · rfl
  · simp

/-- C3 amended: destroy() produces no error — it returns the engine code
without checking it — and after one destroy the handle is null; calling
destroy (or __del__) again returns code 0 and leaves the handle null, but it
does reach the engine again, forwarding the now-null handle: idempotence at
the engine boundary relies on the engine treating a null handle as a no-op,
the Python code guards only on self._library. -/
theorem destroy_repeat_amended (s : DestroySession) (h : s.library = true) :
    (destroy s 0).1.pointer = none ∧
    (partner_del (destroy s 0).1 0).2.1 = some 0 ∧
    (partner_del (destroy s 0).1 0).1.pointer = none ∧
    (partner_del (destroy s 0).1 0).2.2 = [⟨none⟩] := by
  simp [destroy, partner_del, h]

/-- Witness for C3 amended at a live session with handle 1. -/
theorem destroy_repeat_amended_witness :
    (DestroySession.mk true (some 1)).library = true ∧
    ((destroy ⟨true, some 1⟩ 0).1.pointer = none ∧
     (partner_del (destroy ⟨true, some 1⟩ 0).1 0).2.1 = some 0 ∧
     (partner_del (destroy ⟨true, some 1⟩ 0).1 0).1.pointer = none ∧
     (partner_del (destroy ⟨true, some 1⟩ 0).1 0).2.2 = [⟨none⟩]) :=
  ⟨rfl, destroy_repeat_amended ⟨true, some 1⟩ rfl⟩

/-- C4 counterexample: stop() hands a non-zero engine result code (here 5)
back to the caller as a normal return value instead of surfacing it as an
error — Par_Stop's code is never run through check_error. -/
theorem stop_swallows_engine_error_counterexample :
    stop 5 = .ok 5 ∧ (5 : Int) ≠ 0 := by
  constructor
  · rfl
  · decide

/-- C4 amended: operations that run their engine result code through
check_error (every error_wrap-decorated method, and the explicitly checked
ones such as get_status) surface any non-zero code immediately as an error
carrying the raw code; stop() and destroy() are the exceptions — they return
the raw code to the caller without raising. -/
theorem engine_error_surfacing_amended (code : Int) (h : code ≠ 0) :
    error_wrap code = .error (.engineFailure code) ∧
    get_status ⟨3⟩ code = .error (.engineFailure code) ∧
    stop code = .ok code ∧
    (destroy ⟨true, some 1⟩ code).2.1 = some code := by
  simp [error_wrap, check_error, get_status, stop, destroy, h]

/-- Witness for C4 amended at engine code 5. -/
theorem engine_error_surfacing_amended_witness :
    (5 : Int) ≠ 0 ∧
    (error_wrap 5 = .error (.engineFailure 5) ∧
     get_status ⟨3⟩ 5 = .error (.engineFailure 5) ∧
     stop 5 = .ok 5 ∧
     (destroy ⟨true, some 1⟩ 5).2.1 = some 5) :=
  ⟨by decide, engine_error_surfacing_amended 5 (by decide)⟩

/-- C5: start_to with a syntactically invalid local or remote IPv4 string
raises ValueError without making any engine call, the connection state is
unchanged, and get_status afterwards still reports 0 (disconnected). -/
theorem start_to_invalid_ip_fails_fast (st : LinkState) (lip rip : String)
    (lt rt : Nat) (code : Int) (after : LinkState)
    (hst : st.status = 0)
    (h : isValidIPv4 lip = false ∨ isValidIPv4 rip = false) :
    (∃ msg, (start_to st lip rip lt rt code after).1 =
      .error (.valueError msg)) ∧
    (start_to st lip rip lt rt code after).2.1 = st ∧
    (start_to st lip rip lt rt code after).2.2 = [] ∧
    get_status (start_to st lip rip lt rt code after).2.1 0 = .ok 0 := by
  by_cases hl : isValidIPv4 lip = true
  · have hr : isValidIPv4 rip = false := by
      rcases h with h | h
      · rw [h] at hl; exact absurd hl (by simp)
      · exact h
    refine ⟨⟨rip ++ " is invalid ipv4", ?_⟩, ?_, ?_, ?_⟩ <;>
      simp [start_to, hl, hr, get_status, check_error, hst]
  · have hl2 : isValidIPv4 lip = false := by simpa using hl
    refine ⟨⟨lip ++ " is invalid ipv4", ?_⟩, ?_, ?_, ?_⟩ <;>
      simp [start_to, hl2, get_status, check_error, hst]

/-- Witness for C5 at the spec's example address "999.1.1.1". -/
theorem start_to_invalid_ip_fails_fast_witness :
    ((⟨0⟩ : LinkState).status = 0 ∧
      (isValidIPv4 "999.1.1.1" = false ∨ isValidIPv4 "127.0.0.1" = false)) ∧
    ((∃ msg, (start_to ⟨0⟩ "999.1.1.1" "127.0.0.1" 4098 4098 0 ⟨3⟩).1 =
        .error (.valueError msg)) ∧
     (start_to ⟨0⟩ "999.1.1.1" "127.0.0.1" 4098 4098 0 ⟨3⟩).2.1 = ⟨0⟩ ∧
     (start_to ⟨0⟩ "999.1.1.1" "127.0.0.1" 4098 4098 0 ⟨3⟩).2.2 = [] ∧
     get_status (start_to ⟨0⟩ "999.1.1.1" "127.0.0.1" 4098 4098 0 ⟨3⟩).2.1 0 =
       .ok 0) :=
  ⟨⟨rfl, Or.inl (by decide)⟩,
    start_to_invalid_ip_fails_fast ⟨0⟩ "999.1.1.1" "127.0.0.1" 4098 4098 0 ⟨3⟩
      rfl (Or.inl (by decide))⟩

/-- C6: Timeout sentinel mapping.  For a payload that passes the local checks,
b_send raises the send-timeout exception exactly when the engine code equals
the send-timeout sentinel; wait_as_b_send_completion likewise; b_recv raises
the receive-timeout exception exactly when the code equals the
receive-timeout sentinel; every other non-zero code becomes the generic
engine failure carrying the raw code; and code 0 returns normally. -/
theorem timeout_sentinel_mapping (data : PyBuffer) (rid : Nat) (code : Int)
    (r : Nat) (size : Nat) (buf : List Nat)
    (hlen : data.data.length < buffer_size) (hw : data.writable = true) :
    ((b_send data rid code).1 = .error (.snap7Timeout "Partner send Timeout")
      ↔ code = err_Par_Send_Timeout) ∧
    (wait_as_b_send_completion code =
        .error (.snap7Timeout "Partner wait for asynchronous send  Timeout")
      ↔ code = err_Par_Send_Timeout) ∧
    (b_recv ⟨code, r, size, buf⟩ =
        .error (.snap7Timeout "Partner recv Timeout")
      ↔ code = err_Par_Recv_Timeout) ∧
    (code ≠ 0 → code ≠ err_Par_Send_Timeout →
      (b_send data rid code).1 = .error (.engineFailure code) ∧
      wait_as_b_send_completion code = .error (.engineFailure code)) ∧
    (code ≠ 0 → code ≠ err_Par_Recv_Timeout →
      b_recv ⟨code, r, size, buf⟩ = .error (.engineFailure code)) ∧
    (code = 0 →
      (b_send data rid code).1 = .ok 0 ∧
      wait_as_b_send_completion code = .ok 0 ∧
      b_recv ⟨code, r, size, buf⟩ = .ok (r, buf.take size)) := by
  have hge := Nat.not_le.mpr hlen
  have hst0 : err_Par_Send_Timeout ≠ 0 := by decide
  have hrt0 : err_Par_Recv_Timeout ≠ 0 := by decide
  have hsr : err_Par_Send_Timeout ≠ err_Par_Recv_Timeout := by decide
  by_cases hs : code = err_Par_Send_Timeout
  · subst hs
    simp [b_send, b_recv, wait_as_b_send_completion, error_wrap, check_error,
      hge, hw, hst0, hrt0, hsr]
  · by_cases hrc : code = err_Par_Recv_Timeout
    · subst hrc
      simp [b_send, b_recv, wait_as_b_send_completion, error_wrap,
        check_error, hge, hw, hst0, hrt0, Ne.symm hsr]
    · by_cases h0 : code = 0
      · subst h0
        simp [b_send, b_recv, wait_as_b_send_completion, error_wrap,
          check_error, hge, hw, Ne.symm hst0, Ne.symm hrt0]
      · simp [b_send, b_recv, wait_as_b_send_completion, error_wrap,
          check_error, hge, hw, hs, hrc, h0]

/-- Witness for C6 at payload [1], engine code 5. -/
theorem timeout_sentinel_mapping_witness :
    ((PyBuffer.mk [1] true).data.length < buffer_size ∧
      (PyBuffer.mk [1] true).writable = true) ∧
    (((b_send ⟨[1], true⟩ 1 5).1 =
        .error (.snap7Timeout "Partner send Timeout")
      ↔ (5 : Int) = err_Par_Send_Timeout) ∧
    (wait_as_b_send_completion 5 =
        .error (.snap7Timeout "Partner wait for asynchronous send  Timeout")
      ↔ (5 : Int) = err_Par_Send_Timeout) ∧
    (b_recv ⟨5, 2, 0, []⟩ =
        .error (.snap7Timeout "Partner recv Timeout")
      ↔ (5 : Int) = err_Par_Recv_Timeout) ∧
    ((5 : Int) ≠ 0 → (5 : Int) ≠ err_Par_Send_Timeout →
      (b_send ⟨[1], true⟩ 1 5).1 = .error (.engineFailure 5) ∧
      wait_as_b_send_completion 5 = .error (.engineFailure 5)) ∧
    ((5 : Int) ≠ 0 → (5 : Int) ≠ err_Par_Recv_Timeout →
      b_recv ⟨5, 2, 0, []⟩ = .error (.engineFailure 5)) ∧
    ((5 : Int) = 0 →
      (b_send ⟨[1], true⟩ 1 5).1 = .ok 0 ∧
      wait_as_b_send_completion 5 = .ok 0 ∧
      b_recv ⟨5, 2, 0, []⟩ = .ok (2, ([] : List Nat).take 0))) :=
  ⟨⟨by decide, rfl⟩,
    timeout_sentinel_mapping ⟨[1], true⟩ 1 5 2 0 [] (by decide) rfl⟩

/-- C7: check_as_b_send_completion trichotomy.  The invalid-parameter
exception is raised exactly on the engine sentinel -2; True is returned
exactly when the engine reports the job finished (code 0) with a clean
op_result; a job-level error is surfaced as the generic engine failure; and
within the engine contract codes {-2, 0, 1}, False is returned exactly when
the job is still running (code 1). -/
theorem check_as_b_send_completion_trichotomy (result op_result : Int) :
    (check_as_b_send_completion result op_result =
        .error
          (.snap7Exception "The check_as_b_send_completion parameter was invalid")
      ↔ result = -2) ∧
    (check_as_b_send_completion result op_result = .ok true
      ↔ (result = 0 ∧ op_result = 0)) ∧
    (result = 0 → op_result ≠ 0 →
      check_as_b_send_completion result op_result =
        .error (.engineFailure op_result)) ∧
    ((result = -2 ∨ result = 0 ∨ result = 1) →
      (check_as_b_send_completion result op_result = .ok false
        ↔ result = 1)) := by
  by_cases h2 : result = -2
  · simp [check_as_b_send_completion, h2]
  · by_cases h0 : result = 0
    · by_cases hop : op_result = 0 <;>
        simp [check_as_b_send_completion, h2, h0, hop, check_error]
    · constructor
      · simp [check_as_b_send_completion, h2, h0]
      · constructor
        · simp [check_as_b_send_completion, h2, h0]
        · constructor
          · intro h; exact absurd h h0
          · intro hc
            rcases hc with hc | hc | hc
            · exact absurd hc h2
            · exact absurd hc h0
            · simp [check_as_b_send_completion, h2, h0, hc]

/-- Witness for C7 at the invalid-call sentinel -2 with op_result 7. -/
theorem check_as_b_send_completion_trichotomy_witness :
    (check_as_b_send_completion (-2) 7 =
        .error
          (.snap7Exception "The check_as_b_send_completion parameter was invalid")
      ↔ (-2 : Int) = -2) ∧
    (check_as_b_send_completion (-2) 7 = .ok true
      ↔ ((-2 : Int) = 0 ∧ (7 : Int) = 0)) ∧
    ((-2 : Int) = 0 → (7 : Int) ≠ 0 →
      check_as_b_send_completion (-2) 7 = .error (.engineFailure 7)) ∧
    (((-2 : Int) = -2 ∨ (-2 : Int) = 0 ∨ (-2 : Int) = 1) →
      (check_as_b_send_completion (-2) 7 = .ok false ↔ (-2 : Int) = 1)) :=
  check_as_b_send_completion_trichotomy (-2) 7

/-- C8: Callback Bridge dispatch.  Every engine receive notification leads to
exactly one consumer invocation; on result code 0 the consumer gets the rid
and a fresh list built from exactly the reported number of bytes read at the
transient pointer (with the reported size, the whole transient payload); on
a non-zero code the consumer gets (code, none, none) and no payload. -/
theorem recv_callback_dispatch (op_result : Int) (rid : Nat)
    (transient : List Nat) (size : Nat) :
    (recv_callback_wrapper op_result rid transient size).length = 1 ∧
    (op_result = 0 →
      recv_callback_wrapper op_result rid transient transient.length =
        [⟨0, some rid, some transient⟩]) ∧
    (op_result ≠ 0 →
      recv_callback_wrapper op_result rid transient size =
        [⟨op_result, none, none⟩]) := by
  by_cases h : op_result = 0 <;>
    simp [recv_callback_wrapper, h]

/-- Witness for C8 at a successful delivery of [1, 2] with rid 4. -/
theorem recv_callback_dispatch_witness :
    (recv_callback_wrapper 0 4 [1, 2] 2).length = 1 ∧
    ((0 : Int) = 0 →
      recv_callback_wrapper 0 4 [1, 2] ([1, 2] : List Nat).length =
        [⟨0, some 4, some [1, 2]⟩]) ∧
    ((0 : Int) ≠ 0 →
      recv_callback_wrapper 0 4 [1, 2] 2 = [⟨0, none, none⟩]) :=
  recv_callback_dispatch 0 4 [1, 2] 2

/-- C9: For a parameter number absent from the registry, get_param and
set_param fail with KeyError before any engine call; for a registered
number the engine is called, and an engine failure is surfaced carrying the
raw code, so the engine error path is reached only for registered numbers. -/
theorem unknown_param_rejected_before_engine (number : Int)
    (code value : Int) :
    (param_types number = none →
      get_param number code value = (.error (.keyError number), false) ∧
      set_param number code = (.error (.keyError number), false)) ∧
    (∀ t, param_types number = some t →
      (get_param number code value).2 = true ∧
      (set_param number code).2 = true ∧
      (code ≠ 0 →
        (get_param number code value).1 = .error (.engineFailure code) ∧
        (set_param number code).1 = .error (.engineFailure code))) := by
  constructor
  · intro hnone
    simp [get_param, set_param, hnone]
  · intro t hsome
    refine ⟨?_, ?_, ?_⟩
    · cases hce : check_error code <;> simp [get_param, hsome, hce]
    · simp [set_param, hsome]
    · intro hc
      constructor
      · simp [get_param, hsome, check_error, hc]
      · simp [set_param, error_wrap, hsome, check_error, hc]

/-- Witness for C9 at the unregistered number 99 and engine code 1. -/
theorem unknown_param_rejected_before_engine_witness :
    (param_types 99 = none →
      get_param 99 1 0 = (.error (.keyError 99), false) ∧
      set_param 99 1 = (.error (.keyError 99), false)) ∧
    (∀ t, param_types 99 = some t →
      (get_param 99 1 0).2 = true ∧
      (set_param 99 1).2 = true ∧
      ((1 : Int) ≠ 0 →
        (get_param 99 1 0).1 = .error (.engineFailure 1) ∧
        (set_param 99 1).1 = .error (.engineFailure 1))) :=
  unknown_param_rejected_before_engine 99 1 0

/-- C10 counterexample: a read-only buffer of capacity length makes b_send
raise the size ValueError, not a TypeError — so "for every read-only input
b_send raises a TypeError" fails at this input. -/
theorem b_send_readonly_counterexample :
    raisesTypeError (b_send ⟨List.replicate buffer_size 0, false⟩ 1 0) =
      false ∧
    b_send ⟨List.replicate buffer_size 0, false⟩ 1 0 =
      (.error (.valueError "data to send too big maxsize =  65535"), []) := by
  have hb : b_send ⟨List.replicate buffer_size 0, false⟩ 1 0 =
      (.error (.valueError "data to send too big maxsize =  65535"), []) := by
    simp only [b_send, List.length_replicate, ge_iff_le, le_refl, if_true]
  rw [hb]
  exact ⟨rfl, rfl⟩

/-- C10 amended: as_b_send marshals with from_buffer_copy, so it accepts any
buffer (read-only included) and hands the engine a copy of the caller's
bytes; b_send marshals with from_buffer, so on a read-only input of valid
size (length < capacity) it raises TypeError before any engine call. -/
theorem send_marshalling_amended (data : PyBuffer) (rid : Nat) (code : Int)
    (hlen : data.data.length < buffer_size) :
    (as_b_send data rid code).2 = [⟨rid, data.data, data.data.length⟩] ∧
    (data.writable = false →
      b_send data rid code =
        (.error (.typeError "underlying buffer is not writable"), [])) := by
  have hge := Nat.not_le.mpr hlen
  constructor
  · simp [as_b_send, hge]
  · intro hw
    simp [b_send, hge, hw]

/-- Witness for C10 amended at the read-only two-byte buffer [1, 2]. -/
theorem send_marshalling_amended_witness :
    (PyBuffer.mk [1, 2] false).data.length < buffer_size ∧
    ((as_b_send ⟨[1, 2], false⟩ 3 0).2 = [⟨3, [1, 2], 2⟩] ∧
     ((PyBuffer.mk [1, 2] false).writable = false →
       b_send ⟨[1, 2], false⟩ 3 0 =
         (.error (.typeError "underlying buffer is not writable"), []))) :=
  ⟨by decide, send_marshalling_amended ⟨[1, 2], false⟩ 3 0 (by decide)⟩

end Snap7
